import Mathlib

/-! Verification of the Bokeh server Tornado application core
(src/bokeh/server/tornado.py): host whitelist checking, URL derivation,
resource caching, session lookup, connection bookkeeping, periodic jobs,
and shutdown behavior of the `BokehTornado` class.

The state of a `BokehTornado` instance is embedded as the structure
`State`; each method becomes a pure function on `State`, returning the
updated state together with an `Except` value when the Python method can
raise.  Collaborator classes that live outside `tornado.py`
(`ApplicationContext`, `ServerConnection`, `PeriodicCallback`,
`Resources`, the process pool executor) are modelled from the spec where
their behavior matters, as noted on each definition. -/

namespace BokehServer

/-- Logging levels used by `tornado.py` (`log.error`, `log.debug`). -/
inductive LogLevel where
  | debug
  | error
  deriving DecidableEq

/-- One emitted log record: level and the formatted message. -/
structure LogEntry where
  level : LogLevel
  message : String
  deriving DecidableEq

/-- Exceptions raised by the embedded methods: `HTTPError(status, reason)`,
`ValueError(msg)`, `RuntimeError(msg)`. -/
inductive Err where
  | httpError (status : Nat) (reason : String)
  | valueError (msg : String)
  | runtimeError (msg : String)
  deriving DecidableEq

/-- An inbound request as seen by `tornado.py`: `request.protocol` and
`request.host` are the only attributes it reads. -/
structure Request where
  protocol : String
  host : String
  deriving DecidableEq

/-- Modelled from the spec: a per-origin resource descriptor.  The source
constructs `Resources(mode="server", root_url=root_url)`; the class itself
lives in `bokeh/resources.py`, outside src, so it is embedded as the record
of the two constructor arguments. -/
structure Resources where
  mode : String
  root_url : String
  deriving DecidableEq

/-- Modelled from the spec: a Tornado `PeriodicCallback`, reduced to its
configured period in milliseconds and whether it has been started.
`start`/`stop` set and clear the running flag; stopping a stopped job is a
no-op (MaintenanceJob of the spec). -/
structure PeriodicCallback where
  callback_time : Int
  is_running : Bool
  deriving DecidableEq

/-- `PeriodicCallback.start()`: mark the job running. -/
def PeriodicCallback.start (j : PeriodicCallback) : PeriodicCallback :=
  { j with is_running := true }

/-- `PeriodicCallback.stop()`: mark the job not running. -/
def PeriodicCallback.stop (j : PeriodicCallback) : PeriodicCallback :=
  { j with is_running := false }

/-- The mutable state of a `BokehTornado` instance.

Fields mirror the attributes set in `BokehTornado.__init__` and mutated by
its methods: `_hosts`, `_resources` (dict embedded as an association list,
most recent insertion first), `_applications` (only the registered path
set matters to the claims), `_clients` (a Python `set` of connections,
embedded as a duplicate-free list of connection identifiers), the three
periodic jobs, the executor (reduced to whether `shutdown` was called),
the loop running flag, the class-level `_atexit_ran` guard, and the log
output.  `sessions` and `connAttached` are modelled from the spec: the
per-application session directory (`ApplicationContext`, outside src)
embedded as the set of `(application path, session id)` pairs in
existence, and the set of connections still attached to their session
(`ServerConnection.detach_session`, outside src, clears the attachment). -/
structure State where
  hosts : List String
  resources : List (String × Resources)
  applications : List String
  sessions : List (String × String)
  clients : List Nat
  connAttached : List Nat
  executorShutdown : Bool
  statsJob : PeriodicCallback
  cleanupJob : PeriodicCallback
  pingJob : Option PeriodicCallback
  loopRunning : Bool
  atexitRan : Bool
  logged : List LogEntry
  deriving DecidableEq

/-- The error message logged by `_check_host_whitelist` for a rejected
host, exactly as formatted by the source (`"... '%s' ..." % request.host`). -/
def hostErrMsg (host : String) : String :=
  "Request with Host: '" ++ host ++
    "' not in the host whitelist, if this is a valid host for your web server add a --host option to bokeh serve"

/-- `BokehTornado._check_host_whitelist(request)`: if `request.host` is not
a member of `self._hosts`, log the offending host at error level and raise
`HTTPError(403, reason="request host not in whitelist")`; otherwise do
nothing. -/
def check_host_whitelist (s : State) (req : Request) : State × Except Err Unit :=
  if req.host ∈ s.hosts then (s, .ok ())
  else ({ s with logged := ⟨.error, hostErrMsg req.host⟩ :: s.logged },
        .error (.httpError 403 "request host not in whitelist"))

/-- `BokehTornado.root_url_for_request(request)`: check the host whitelist,
then return `request.protocol + "://" + request.host + "/"`. -/
def root_url_for_request (s : State) (req : Request) : State × Except Err String :=
  match check_host_whitelist s req with
  | (s1, .error e) => (s1, .error e)
  | (s1, .ok _) => (s1, .ok (req.protocol ++ "://" ++ req.host ++ "/"))

/-- `BokehTornado.websocket_url_for_request(request, websocket_path)`:
check the host whitelist, then return the ws/wss URL (wss when the request
protocol is https). -/
def websocket_url_for_request (s : State) (req : Request) (websocket_path : String) :
    State × Except Err String :=
  match check_host_whitelist s req with
  | (s1, .error e) => (s1, .error e)
  | (s1, .ok _) =>
    let protocol := if req.protocol == "https" then "wss" else "ws"
    (s1, .ok (protocol ++ "://" ++ req.host ++ websocket_path))

/-- `BokehTornado.resources(request)`: compute the root URL (which checks
the host whitelist); if it is not a key of `self._resources`, store a new
`Resources(mode="server", root_url=root_url)` under it; return the cached
entry. -/
def resources (s : State) (req : Request) : State × Except Err Resources :=
  match root_url_for_request s req with
  | (s1, .error e) => (s1, .error e)
  | (s1, .ok root_url) =>
    match s1.resources.lookup root_url with
    | some r => (s1, .ok r)
    | none =>
      let r : Resources := ⟨"server", root_url⟩
      ({ s1 with resources := (root_url, r) :: s1.resources }, .ok r)

/-- `BokehTornado.start()`: start the stats job, the cleanup job, the ping
job when it exists, and the loop. -/
def start (s : State) : State :=
  let s1 := { s with statsJob := s.statsJob.start, cleanupJob := s.cleanupJob.start }
  let s2 := match s1.pingJob with
    | some j => { s1 with pingJob := some j.start }
    | none => s1
  { s2 with loopRunning := true }

/-- `BokehTornado.stop()`: stop the stats job, the cleanup job, the ping
job when it exists, and the loop.  Nothing else is touched. -/
def stop (s : State) : State :=
  let s1 := { s with statsJob := s.statsJob.stop, cleanupJob := s.cleanupJob.stop }
  let s2 := match s1.pingJob with
    | some j => { s1 with pingJob := some j.stop }
    | none => s1
  { s2 with loopRunning := false }

/-- `BokehTornado.new_connection(...)`: construct a `ServerConnection` and
add it to `self._clients` (a Python set: adding a present element is a
no-op).  The connection is identified by a number; its construction
attaches it to its session (`connAttached`, modelled from the spec). -/
def new_connection (s : State) (c : Nat) : State × Nat :=
  ({ s with
      clients := if c ∈ s.clients then s.clients else c :: s.clients,
      connAttached := if c ∈ s.connAttached then s.connAttached else c :: s.connAttached }, c)

/-- `BokehTornado.client_lost(connection)`: `self._clients.discard(connection)`
(a Python set discard: removing an absent element is a no-op, never an
error) followed by `connection.detach_session()`.  `detach_session` is
modelled from the spec: it clears the connection's session attachment,
here by removing the connection from `connAttached`. -/
def client_lost (s : State) (c : Nat) : State :=
  { s with clients := s.clients.erase c, connAttached := s.connAttached.erase c }

/-- `BokehTornado.get_session(app_path, session_id)`: raise
`ValueError("Application %s does not exist on this server")` when
`app_path` is not a key of `self._applications`; otherwise delegate to the
application context.  `ApplicationContext.get_session` is outside src and
is modelled from the spec as lookup-or-create: return the existing
`(path, id)` session or create and store it. -/
def get_session (s : State) (app_path session_id : String) :
    State × Except Err (String × String) :=
  if app_path ∈ s.applications then
    if (app_path, session_id) ∈ s.sessions then (s, .ok (app_path, session_id))
    else ({ s with sessions := (app_path, session_id) :: s.sessions },
          .ok (app_path, session_id))
  else
    (s, .error (.valueError ("Application " ++ app_path ++ " does not exist on this server")))

/-- The loop body of `BokehTornado.keep_alive`: `for c in self._clients:
c.send_ping()`.  `send_ping` (on `ServerConnection`, outside src) is a
parameter that either succeeds or raises; an exception propagates out of
the `for` loop, so the connections not yet visited are not pinged.
Returns the list of connections successfully pinged, in iteration order,
and the propagated exception if any. -/
def keep_alive_loop (ping : Nat → Except Err Unit) : List Nat → List Nat × Option Err
  | [] => ([], none)
  | c :: rest =>
    match ping c with
    | .error e => ([], some e)
    | .ok _ =>
      let r := keep_alive_loop ping rest
      (c :: r.1, r.2)

/-- `BokehTornado.keep_alive()`: iterate the live `self._clients` set (no
snapshot is taken), sending a ping to each connection in turn. -/
def keep_alive (ping : Nat → Except Err Unit) (s : State) : List Nat × Option Err :=
  keep_alive_loop ping s.clients

/-- `BokehTornado._cleanup`: log "Shutdown: cleaning up" at debug level,
shut down the executor without waiting, and clear `self._clients`. -/
def cleanup (s : State) : State :=
  { s with
      logged := ⟨.debug, "Shutdown: cleaning up"⟩ :: s.logged,
      executorShutdown := true,
      clients := [] }

/-- `BokehTornado._atexit`: guarded by the one-shot `_atexit_ran` flag — a
second invocation returns immediately.  The first invocation sets the
flag, stops the stats job, and runs `_cleanup` on a fresh loop. -/
def atexit (s : State) : State :=
  if s.atexitRan then s
  else cleanup { s with atexitRan := true, statsJob := s.statsJob.stop }

/-- `BokehTornado._sigterm(signum, frame)`: print a notice, call
`self.stop()`, then `self._atexit()`. -/
def sigterm (s : State) : State :=
  atexit (stop s)

/-- The number of times the cleanup sequence has run, observed through its
debug log line (source: `log.debug("Shutdown: cleaning up")`). -/
def countCleanups (s : State) : Nat :=
  s.logged.count ⟨.debug, "Shutdown: cleaning up"⟩

/-- Constructor arguments of `BokehTornado.__init__` that the claims
depend on: the application path set (dict keys), the host whitelist, and
`keep_alive_milliseconds`. -/
structure InitArgs where
  applications : List String
  hosts : List String
  keep_alive_milliseconds : Int
  deriving DecidableEq

/-- Route construction of `__init__`: `route = p[0]` when the application
key is "/", else `key + p[0]`. -/
def route (key p : String) : String :=
  if key == "/" then p else key ++ p

/-- Python `str.endswith(suffix)`, as a suffix test on the character
lists of the two strings. -/
def ends_with (s suffix : String) : Bool :=
  suffix.data.isSuffixOf s.data

/-- `BokehTornado.__init__(applications, hosts, ..., keep_alive_milliseconds)`.

In source order: raise `ValueError("keep_alive_milliseconds must be >= 0")`
when the interval is negative (before `_resources`, `_applications`,
`_clients`, the executor, or any job is created); then, per application
key, build the routes from `per_app_patterns` and raise
`RuntimeError("Couldn't find websocket path")` when no route ends in "/ws"
(`per_app_patterns` lives in `bokeh/server/urls.py`, outside src, so the
pattern suffix list is a parameter here); finally build the state:
empty resource cache, empty client set, stats job at 15000 ms, cleanup
job at 17000 ms, and a ping job at `keep_alive_milliseconds` exactly when
the interval is positive (`0` means disabled: no ping job). -/
def init (perAppPatterns : List String) (a : InitArgs) : Except Err State :=
  if a.keep_alive_milliseconds < 0 then
    .error (.valueError "keep_alive_milliseconds must be >= 0")
  else if a.applications.any
      (fun key => !(perAppPatterns.any (fun p => ends_with (route key p) "/ws"))) then
    .error (.runtimeError "Couldn't find websocket path")
  else
    .ok { hosts := a.hosts
          resources := []
          applications := a.applications
          sessions := []
          clients := []
          connAttached := []
          executorShutdown := false
          statsJob := ⟨15000, false⟩
          cleanupJob := ⟨17000, false⟩
          pingJob := if a.keep_alive_milliseconds > 0 then
                       some ⟨a.keep_alive_milliseconds, false⟩
                     else none
          loopRunning := false
          atexitRan := false
          logged := [] }

/-- A concrete running server state used to instantiate the theorems:
whitelist {good.example}, one application at "/app", two connections. -/
def sampleState : State :=
  { hosts := ["good.example"]
    resources := []
    applications := ["/app"]
    sessions := []
    clients := [1, 2]
    connAttached := [1, 2]
    executorShutdown := false
    statsJob := ⟨15000, true⟩
    cleanupJob := ⟨17000, true⟩
    pingJob := some ⟨37000, true⟩
    loopRunning := true
    atexitRan := false
    logged := [] }

/-- A ping action that fails on connection 1 and succeeds elsewhere. -/
def pingFailsOn1 : Nat → Except Err Unit :=
  fun c => if c = 1 then .error (.valueError "ping failed") else .ok ()

/-- The state produced by constructing the server with one application at
"/app", whitelist {good.example}, and the default 37000 ms keep-alive. -/
def builtState : State :=
  { hosts := ["good.example"]
    resources := []
    applications := ["/app"]
    sessions := []
    clients := []
    connAttached := []
    executorShutdown := false
    statsJob := ⟨15000, false⟩
    cleanupJob := ⟨17000, false⟩
    pingJob := some ⟨37000, false⟩
    loopRunning := false
    atexitRan := false
    logged := [] }

instance {ε α : Type} [DecidableEq ε] [DecidableEq α] : DecidableEq (Except ε α) :=
  fun x y =>
    match x, y with
    | .error a, .error b =>
      if h : a = b then .isTrue (by rw [h])
      else .isFalse (fun hc => by cases hc; exact h rfl)
    | .error _, .ok _ => .isFalse (fun hc => by cases hc)
    | .ok _, .error _ => .isFalse (fun hc => by cases hc)
    | .ok a, .ok b =>
      if h : a = b then .isTrue (by rw [h])
      else .isFalse (fun hc => by cases hc; exact h rfl)

/-- Helper: when every ping succeeds, the keep-alive loop pings exactly
the connections it is given, in order, and propagates no exception. -/
theorem keep_alive_loop_all_ok (ping : Nat → Except Err Unit) (l : List Nat)
    (h : ∀ c ∈ l, ping c = .ok ()) :
    keep_alive_loop ping l = (l, none) := by
  induction l with
  | nil => rfl
  | cons c rest ih =>
    have hc := h c (by simp)
    have hrest := ih (fun x hx => h x (by simp [hx]))
    simp [keep_alive_loop, hc, hrest]

/-- Helper: consing a fresh key onto an association list preserves every
existing binding. -/
theorem lookup_cons_preserve {β : Type} (l : List (String × β)) (url k : String) (r v : β)
    (hnone : l.lookup url = none) (hv : l.lookup k = some v) :
    ((url, r) :: l).lookup k = some v := by
  have hk : (k == url) = false := by
    by_cases h : k = url
    · subst h; rw [hnone] at hv; cases hv
    · simp [h]
  simp [List.lookup, hk, hv]

/-- C9: host validation is exact string membership — `_check_host_whitelist`
passes if and only if the request's full host value (the verbatim string,
port component included, with no normalization, case folding, or wildcard
matching) is a member of the configured hosts collection.  Membership is
plain string equality against `self._hosts`. -/
theorem host_check_exact_membership (s : State) (req : Request) :
    (check_host_whitelist s req).2 = .ok () ↔ req.host ∈ s.hosts := by
  by_cases h : req.host ∈ s.hosts
  · simp [check_host_whitelist, h]
  · simp [check_host_whitelist, h]

/-- C1: for a request whose host is not in the whitelist, root-URL
derivation, WebSocket-URL derivation, and resource lookup each fail with
HTTPError 403 ("request host not in whitelist"); each failing call leaves
the state unchanged except for appending one error-level log entry whose
message contains the offending host (so no session, no connection, and no
resource-cache entry is created). -/
theorem host_whitelist_forbidden (s : State) (req : Request)
    (h : req.host ∉ s.hosts) :
    (root_url_for_request s req).2 = .error (.httpError 403 "request host not in whitelist") ∧
    (∀ wp, (websocket_url_for_request s req wp).2 =
      .error (.httpError 403 "request host not in whitelist")) ∧
    (resources s req).2 = .error (.httpError 403 "request host not in whitelist") ∧
    (root_url_for_request s req).1 =
      { s with logged := ⟨.error, hostErrMsg req.host⟩ :: s.logged } ∧
    (∀ wp, (websocket_url_for_request s req wp).1 =
      { s with logged := ⟨.error, hostErrMsg req.host⟩ :: s.logged }) ∧
    (resources s req).1 =
      { s with logged := ⟨.error, hostErrMsg req.host⟩ :: s.logged } ∧
    hostErrMsg req.host =
      "Request with Host: '" ++ req.host ++
        "' not in the host whitelist, if this is a valid host for your web server add a --host option to bokeh serve" := by
  refine ⟨?_, ?_, ?_, ?_, ?_, ?_, rfl⟩ <;>
    simp [resources, root_url_for_request, websocket_url_for_request,
      check_host_whitelist, h]

/-- C1 witness: the whitelist {good.example} rejects Host evil.example in
a resource lookup with a 403 error, while creating no resource-cache
entry, no session, and no connection. -/
theorem host_whitelist_forbidden_witness :
    (resources sampleState ⟨"http", "evil.example"⟩).2 =
      .error (.httpError 403 "request host not in whitelist") ∧
    (resources sampleState ⟨"http", "evil.example"⟩).1.resources = [] ∧
    (resources sampleState ⟨"http", "evil.example"⟩).1.sessions = [] ∧
    (resources sampleState ⟨"http", "evil.example"⟩).1.clients = sampleState.clients := by
  have h := host_whitelist_forbidden sampleState ⟨"http", "evil.example"⟩ (by decide)
  refine ⟨h.2.2.1, ?_, ?_, ?_⟩ <;> rw [h.2.2.2.2.2.1] <;> rfl

/-- C10: `stop()` modifies nothing but the three periodic jobs and the
loop flag: the client set, application registry, session directory,
resource cache, executor, host whitelist, connection attachments, log and
atexit guard are all unchanged; clearing the client set and shutting down
the executor happen only in the `_cleanup` path. -/
theorem stop_frame (s : State) :
    (stop s).clients = s.clients ∧
    (stop s).applications = s.applications ∧
    (stop s).sessions = s.sessions ∧
    (stop s).resources = s.resources ∧
    (stop s).executorShutdown = s.executorShutdown ∧
    (stop s).hosts = s.hosts ∧
    (stop s).connAttached = s.connAttached ∧
    (stop s).logged = s.logged ∧
    (stop s).atexitRan = s.atexitRan ∧
    (stop s).statsJob.is_running = false ∧
    (stop s).cleanupJob.is_running = false ∧
    (stop s).loopRunning = false ∧
    (cleanup s).clients = [] ∧
    (cleanup s).executorShutdown = true := by
  cases hping : s.pingJob <;>
    simp [stop, cleanup, PeriodicCallback.stop, hping]

/-- C7: connection removal is idempotent and total — `client_lost` on a
connection not present in the client set leaves the set unchanged (a
Python `set.discard` no-op, never an error), removing twice equals
removing once, and when the connection is attached nowhere the whole
state is untouched. -/
theorem client_lost_idempotent (s : State) (c : Nat)
    (h1 : s.clients.Nodup) (h2 : s.connAttached.Nodup) :
    client_lost (client_lost s c) c = client_lost s c ∧
    (c ∉ s.clients → (client_lost s c).clients = s.clients) ∧
    (c ∉ s.clients → c ∉ s.connAttached → client_lost s c = s) := by
  refine ⟨?_, ?_, ?_⟩
  · have e1 : c ∉ s.clients.erase c := fun hc => by
      rcases (List.Nodup.mem_erase_iff h1).mp hc with ⟨hne, _⟩
      exact hne rfl
    have e2 : c ∉ s.connAttached.erase c := fun hc => by
      rcases (List.Nodup.mem_erase_iff h2).mp hc with ⟨hne, _⟩
      exact hne rfl
    simp [client_lost, List.erase_of_not_mem e1, List.erase_of_not_mem e2]
  · intro hc
    simp [client_lost, List.erase_of_not_mem hc]
  · intro hc ha
    simp [client_lost, List.erase_of_not_mem hc, List.erase_of_not_mem ha]

/-- C7 witness: removing the never-registered connection 99 from the
sample state is a no-op, and removing connection 1 twice equals removing
it once. -/
theorem client_lost_idempotent_witness :
    client_lost sampleState 99 = sampleState ∧
    client_lost (client_lost sampleState 1) 1 = client_lost sampleState 1 := by
  refine ⟨?_, (client_lost_idempotent sampleState 1 (by decide) (by decide)).1⟩
  exact (client_lost_idempotent sampleState 99 (by decide) (by decide)).2.2
    (by decide) (by decide)

/-- C2: shutdown is idempotent — a second SIGTERM (`_sigterm` runs
`stop()` then `_atexit()`) and a second `_atexit()` are no-ops on the
state; starting from a state whose `_atexit_ran` guard is clear, exactly
one cleanup sequence runs (the "Shutdown: cleaning up" line is logged
once, the executor is shut down, and the client set is cleared), and the
second invocation adds nothing. -/
theorem shutdown_idempotent (s : State) (h : s.atexitRan = false) :
    sigterm (sigterm s) = sigterm s ∧
    atexit (atexit s) = atexit s ∧
    countCleanups (sigterm s) = countCleanups s + 1 ∧
    countCleanups (sigterm (sigterm s)) = countCleanups (sigterm s) ∧
    (sigterm s).executorShutdown = true ∧
    (sigterm s).clients = [] := by
  cases hping : s.pingJob <;>
    simp [sigterm, atexit, stop, cleanup, countCleanups,
      PeriodicCallback.stop, h, hping, List.count_cons]

/-- C2 witness: on the sample running state, two SIGTERMs equal one, the
cleanup sequence runs exactly once, and the second `_atexit` is a no-op. -/
theorem shutdown_idempotent_witness :
    sigterm (sigterm sampleState) = sigterm sampleState ∧
    countCleanups (sigterm sampleState) = countCleanups sampleState + 1 ∧
    countCleanups (sigterm (sigterm sampleState)) = countCleanups (sigterm sampleState) := by
  have h := shutdown_idempotent sampleState rfl
  exact ⟨h.1, h.2.2.1, h.2.2.2.1⟩

/-- C3: `get_session(app_path, session_id)` on an unregistered path
raises `ValueError("Application ... does not exist on this server")` and
returns the state unchanged (no session is created, nothing else is
touched); on a registered path it returns the `(path, id)` session,
creating and storing it when absent, without touching the application
registry, the client set, or the resource cache.  The registered branch
delegates to `ApplicationContext.get_session`, which is outside src and
modelled from the spec as lookup-or-create. -/
theorem get_session_spec (s : State) (p sid : String) :
    (p ∉ s.applications →
      get_session s p sid =
        (s, .error (.valueError ("Application " ++ p ++ " does not exist on this server")))) ∧
    (p ∈ s.applications →
      (get_session s p sid).2 = .ok (p, sid) ∧
      (p, sid) ∈ (get_session s p sid).1.sessions ∧
      (get_session s p sid).1.applications = s.applications ∧
      (get_session s p sid).1.clients = s.clients ∧
      (get_session s p sid).1.resources = s.resources) := by
  constructor
  · intro hp
    simp [get_session, hp]
  · intro hp
    by_cases hs : (p, sid) ∈ s.sessions <;>
      simp [get_session, hp, hs]

/-- C3 witness: on the sample state (registered path "/app"), the path
"/nope" fails with the NotFound-style ValueError and leaves the state
unchanged, while "/app" returns a freshly created session. -/
theorem get_session_spec_witness :
    get_session sampleState "/nope" "s1" =
      (sampleState,
        .error (.valueError "Application /nope does not exist on this server")) ∧
    (get_session sampleState "/app" "s1").2 = .ok ("/app", "s1") := by
  refine ⟨(get_session_spec sampleState "/nope" "s1").1 (by decide), ?_⟩
  exact ((get_session_spec sampleState "/app" "s1").2 (by decide)).1

/-- C4 counterexample: `keep_alive` does not isolate ping failures (and
takes no snapshot: it iterates `self._clients` directly).  On the sample
state with live connections {1, 2}, a ping that raises on connection 1
propagates out of the `for` loop, so connection 2 — present in the
connection set at the start of the tick — receives no ping in that tick,
contradicting the claim that every connection present at the start of the
tick receives exactly one ping and that a failure on one connection does
not prevent pings to the others. -/
theorem keep_alive_failure_not_isolated :
    2 ∈ sampleState.clients ∧
    keep_alive pingFailsOn1 sampleState = ([], some (.valueError "ping failed")) ∧
    2 ∉ (keep_alive pingFailsOn1 sampleState).1 := by
  refine ⟨by decide, by decide, by decide⟩

/-- C4 amended: on a keep-alive tick the job iterates the live client set
(no snapshot); when every ping send succeeds, every connection present at
the start of the tick is pinged exactly once and no exception propagates;
a ping failure propagates out of the loop, so connections not yet visited
in that tick receive no ping. -/
theorem keep_alive_all_succeed (ping : Nat → Except Err Unit) (s : State)
    (h : ∀ c ∈ s.clients, ping c = .ok ()) (hnd : s.clients.Nodup) :
    (keep_alive ping s).1 = s.clients ∧
    (keep_alive ping s).2 = none ∧
    ∀ c ∈ s.clients, (keep_alive ping s).1.count c = 1 := by
  have hloop := keep_alive_loop_all_ok ping s.clients h
  refine ⟨?_, ?_, ?_⟩
  · simp [keep_alive, hloop]
  · simp [keep_alive, hloop]
  · intro c hc
    simp only [keep_alive, hloop]
    exact List.count_eq_one_of_mem hnd hc

/-- C4 amended witness: on the sample state with connections {1, 2} and a
ping that always succeeds, both connections are pinged exactly once and
no exception propagates. -/
theorem keep_alive_all_succeed_witness :
    (keep_alive (fun _ => .ok ()) sampleState).1 = sampleState.clients ∧
    (keep_alive (fun _ => .ok ()) sampleState).2 = none := by
  have h := keep_alive_all_succeed (fun _ => .ok ()) sampleState
    (fun c _ => rfl) (by decide)
  exact ⟨h.1, h.2.1⟩

/-- C5: when the keep-alive interval is 0, no ping job exists after
construction, and `start()`/`stop()` start and stop no ping job; when the
interval is N > 0, construction creates a ping job with period N
milliseconds, not yet running; `start()` starts it and `stop()` stops it. -/
theorem ping_job_config (pats : List String) (a : InitArgs) (s : State)
    (h : init pats a = .ok s) :
    (a.keep_alive_milliseconds = 0 →
      s.pingJob = none ∧
      (start s).pingJob = none ∧
      (stop (start s)).pingJob = none) ∧
    (0 < a.keep_alive_milliseconds →
      s.pingJob = some ⟨a.keep_alive_milliseconds, false⟩ ∧
      (start s).pingJob = some ⟨a.keep_alive_milliseconds, true⟩ ∧
      (stop (start s)).pingJob = some ⟨a.keep_alive_milliseconds, false⟩) := by
  unfold init at h
  split at h
  · exact absurd h (by simp)
  · split at h
    · exact absurd h (by simp)
    · injection h with h
      subst h
      constructor
      · intro h0
        simp [h0, start, stop]
      · intro hpos
        simp [start, stop, PeriodicCallback.start, PeriodicCallback.stop, hpos]

/-- C5 witness: constructing with the default 37000 ms interval yields a
ping job of period 37000 that `start()` starts and `stop()` stops; with
interval 0 no ping job exists and none is started or stopped. -/
theorem ping_job_config_witness :
    (builtState.pingJob = some ⟨37000, false⟩ ∧
     (start builtState).pingJob = some ⟨37000, true⟩ ∧
     (stop (start builtState)).pingJob = some ⟨37000, false⟩) ∧
    ({ builtState with pingJob := none }.pingJob = none ∧
     (start { builtState with pingJob := none }).pingJob = none ∧
     (stop (start { builtState with pingJob := none })).pingJob = none) := by
  constructor
  · exact (ping_job_config ["/ws"] ⟨["/app"], ["good.example"], 37000⟩ builtState
      (by decide)).2 (by decide)
  · exact (ping_job_config ["/ws"] ⟨["/app"], ["good.example"], 0⟩
      { builtState with pingJob := none } (by decide)).1 rfl

/-- C6: a strictly negative keep-alive interval makes `__init__` raise
`ValueError("keep_alive_milliseconds must be >= 0")` — the check precedes
the creation of the resource cache, the application wrapping, the client
set, the executor, and every periodic job, so no server state exists on
failure (the constructor returns an error, not a state); an interval of
exactly 0 is accepted by this check (construction never fails with that
error). -/
theorem keep_alive_interval_check (pats : List String) (a : InitArgs) :
    (a.keep_alive_milliseconds < 0 →
      init pats a = .error (.valueError "keep_alive_milliseconds must be >= 0")) ∧
    (a.keep_alive_milliseconds = 0 →
      init pats a ≠ .error (.valueError "keep_alive_milliseconds must be >= 0")) := by
  constructor
  · intro hneg
    simp [init, hneg]
  · intro h0
    unfold init
    have : ¬ a.keep_alive_milliseconds < 0 := by omega
    simp only [if_neg this]
    split <;> simp

/-- C6 witness: interval -1 is rejected with the construction-time
ValueError; interval 0 is not rejected by this check. -/
theorem keep_alive_interval_check_witness :
    init ["/ws"] ⟨["/app"], ["good.example"], -1⟩ =
      .error (.valueError "keep_alive_milliseconds must be >= 0") ∧
    init ["/ws"] ⟨["/app"], ["good.example"], 0⟩ ≠
      .error (.valueError "keep_alive_milliseconds must be >= 0") := by
  constructor
  · exact (keep_alive_interval_check ["/ws"] ⟨["/app"], ["good.example"], -1⟩).1 (by decide)
  · exact (keep_alive_interval_check ["/ws"] ⟨["/app"], ["good.example"], 0⟩).2 rfl

/-- C8: the resource cache memoizes by computed root URL — for two
requests with the same scheme and host, both passing host validation, the
second `resources` call returns exactly the descriptor cached by the
first and changes nothing (one entry per distinct root URL); existing
cache entries are never evicted by a `resources` call (the cache only
grows); and when the root URL is already cached, the call adds nothing. -/
theorem resources_memoizes (s : State) (r1 r2 : Request)
    (hh : r2.host = r1.host) (hp : r2.protocol = r1.protocol)
    (hv : r1.host ∈ s.hosts) :
    (resources (resources s r1).1 r2).2 = (resources s r1).2 ∧
    (resources (resources s r1).1 r2).1 = (resources s r1).1 ∧
    (∀ k v, s.resources.lookup k = some v →
      (resources s r1).1.resources.lookup k = some v) ∧
    ((s.resources.lookup (r1.protocol ++ "://" ++ r1.host ++ "/")).isSome →
      (resources s r1).1.resources = s.resources) := by
  have hv2 : r2.host ∈ s.hosts := by rw [hh]; exact hv
  cases hlook : s.resources.lookup (r1.protocol ++ "://" ++ r1.host ++ "/") with
  | some r =>
    refine ⟨?_, ?_, ?_, ?_⟩ <;>
      simp [resources, root_url_for_request, check_host_whitelist,
        hv, hv2, hh, hp, hlook]
  | none =>
    have hcons : ∀ k v, s.resources.lookup k = some v →
        (((r1.protocol ++ "://" ++ r1.host ++ "/",
           (⟨"server", r1.protocol ++ "://" ++ r1.host ++ "/"⟩ : Resources)) ::
          s.resources).lookup k = some v) := by
      intro k v hkv
      exact lookup_cons_preserve s.resources _ k _ v hlook hkv
    have hself : ((r1.protocol ++ "://" ++ r1.host ++ "/",
        (⟨"server", r1.protocol ++ "://" ++ r1.host ++ "/"⟩ : Resources)) ::
        s.resources).lookup (r1.protocol ++ "://" ++ r1.host ++ "/") =
        some ⟨"server", r1.protocol ++ "://" ++ r1.host ++ "/"⟩ := by
      simp [List.lookup]
    refine ⟨?_, ?_, ?_, ?_⟩
    · simp [resources, root_url_for_request, check_host_whitelist,
        hv, hv2, hh, hp, hlook, hself]
    · simp [resources, root_url_for_request, check_host_whitelist,
        hv, hv2, hh, hp, hlook, hself]
    · intro k v hkv
      simp only [resources, root_url_for_request, check_host_whitelist,
        if_pos hv, hlook]
      exact hcons k v hkv
    · intro hsome
      simp [hlook] at hsome

/-- C8 witness: two resource lookups for http requests to good.example
return the same cached descriptor and leave a single cache entry. -/
theorem resources_memoizes_witness :
    (resources (resources sampleState ⟨"http", "good.example"⟩).1
        ⟨"http", "good.example"⟩).2 =
      (resources sampleState ⟨"http", "good.example"⟩).2 ∧
    (resources (resources sampleState ⟨"http", "good.example"⟩).1
        ⟨"http", "good.example"⟩).1 =
      (resources sampleState ⟨"http", "good.example"⟩).1 := by
  have h := resources_memoizes sampleState ⟨"http", "good.example"⟩
    ⟨"http", "good.example"⟩ rfl rfl (by decide)
  exact ⟨h.1, h.2.1⟩

end BokehServer
